import Mathlib

/-!
Verification of the Agentic Form Filler against its specification.

The Python sources are embedded shallowly:
- strings are Lean `String`s, and the Python string operations used by the
  code (`strip`, `split`, slicing, `isdigit`, `int(...)`) are implemented
  character-list-wise so that every definition is executable;
- the external Cohere generator boundary (`client.generate(...)` followed by
  `response.generations[0].text`) is one oracle value of type
  `Except String String`: `.ok t` is a returned text, `.error e` is any
  exception raised by the call;
- the `random` module is an oracle bundled with the contracts Python
  guarantees for `random.random`, `random.randint` and `random.sample`;
- Selenium elements are opaque records carrying the two observations the
  code makes of them (vertical position and text).
-/

/-! ## Python string primitives -/

/-- Python `str.strip()`: drop whitespace from both ends. -/
def pyStrip (s : String) : String :=
  String.mk (((s.toList.dropWhile Char.isWhitespace).reverse.dropWhile
    Char.isWhitespace).reverse)

/-- Python slicing `s[:n]`: the first `n` characters. -/
def pyTake (s : String) (n : Nat) : String :=
  String.mk (s.toList.take n)

/-- Helper for Python `str.split()`: accumulate the current word (reversed). -/
def pySplitGo (cur : List Char) : List Char → List String
  | [] => if cur.isEmpty then [] else [String.mk cur.reverse]
  | c :: cs =>
    if c.isWhitespace then
      if cur.isEmpty then pySplitGo [] cs
      else String.mk cur.reverse :: pySplitGo [] cs
    else pySplitGo (c :: cur) cs

/-- Python `str.split()` with no argument: split on whitespace runs,
dropping empty words. -/
def pySplit (s : String) : List String := pySplitGo [] s.toList

/-- Python `str.isdigit()` (ASCII digits, the only ones relevant here). -/
def pyIsdigit (w : String) : Bool := !w.isEmpty && w.toList.all Char.isDigit

/-- Python `int(...)` on a string of digits. -/
def natOfDigits (ds : List Char) : Nat :=
  ds.foldl (fun a c => a * 10 + (c.toNat - 48)) 0

/-- Python `int(...)` on a word. -/
def pyInt (w : String) : Nat := natOfDigits w.toList

/-! ## The random-module oracle

One run of an answer-agent method makes at most one draw per kind, so an
oracle carries one value for `random.random()`, one function for
`random.randint` and one for `random.sample(range(n), k)`, each with the
contract the Python library guarantees. -/

structure PyRandom where
  rfloat : Rat
  rfloat_nonneg : 0 ≤ rfloat
  rfloat_lt_one : rfloat < 1
  randint : Nat → Nat → Nat
  randint_ge : ∀ lo hi, lo ≤ hi → lo ≤ randint lo hi
  randint_le : ∀ lo hi, lo ≤ hi → randint lo hi ≤ hi
  sample : Nat → Nat → List Nat
  sample_len : ∀ n k, k ≤ n → (sample n k).length = k
  sample_mem : ∀ n k, k ≤ n → ∀ i ∈ sample n k, i < n

/-- The float literal `0.3` of the efficiency short-circuit
`random.random() < 0.3` (written as an explicit normalized rational so the
kernel can evaluate comparisons against it). -/
def pyFloat_0_3 : Rat := ⟨3, 10, by norm_num, by norm_num⟩

/-- A concrete random oracle used to evaluate the development on closed
inputs: `random.random()` yields 1/2, `randint` its lower bound, `sample`
the first `k` naturals. -/
def theRandom : PyRandom where
  rfloat := ⟨1, 2, by norm_num, by norm_num⟩
  rfloat_nonneg := by decide
  rfloat_lt_one := by decide
  randint := fun lo _ => lo
  randint_ge := fun lo hi _ => Nat.le_refl lo
  randint_le := fun lo hi h => h
  sample := fun _ k => List.range k
  sample_len := by intro n k _; simp
  sample_mem := by
    intro n k hk i hi
    exact Nat.lt_of_lt_of_le (List.mem_range.mp hi) hk

/-! ## Data model

`src/config.py` `QUESTION_TYPES`: the question-type tags are plain strings
and the agents dispatch on string equality. -/

def QT_TEXT : String := "text"
def QT_PARAGRAPH : String := "paragraph"
def QT_MULTIPLE_CHOICE : String := "multiple_choice"
def QT_CHECKBOX : String := "checkbox"
def QT_DROPDOWN : String := "dropdown"
def QT_UNKNOWN : String := "unknown"

/-- A Selenium element, reduced to the observations the embedded code makes
of it: `location['y']` and `.text`. -/
structure Elem where
  y : Int
  text : String
deriving DecidableEq

/-- A question record as built by `ReasoningAgent.extract_questions`
(`src/agents/reasoning_agent.py`): the Python dict has exactly the keys
`text`, `type`, `options`, `elements`.  The field `required` models the
presence of a `required` key in that dict (`none` = the key is absent);
every construction site in the source builds the dict without it. -/
structure Question where
  text : String
  qtype : String
  options : List String
  elements : List Elem
  required : Option Bool
deriving DecidableEq

/-- The value returned by `AnswerAgent.generate_answer`
(`Union[str, int, List[int]]`; every produced integer is non-negative). -/
inductive PyVal where
  | str (s : String)
  | int (n : Nat)
  | list (l : List Nat)
deriving DecidableEq

/-! ## AnswerAgent (`src/agents/answer_agent.py`) -/

/-- `AnswerAgent._generate_text_answer`: strip the generated text, truncate
to 30 characters when longer; on any generator exception return the literal
`"Sample response"`. -/
def generate_text_answer (resp : Except String String) : String :=
  match resp with
  | Except.ok t =>
    let answer := pyStrip t
    if 30 < answer.length then pyTake answer 30 else answer
  | Except.error _ => "Sample response"

/-- The fixed string `_generate_paragraph_answer` returns when the
generator raises. -/
def SAMPLE_PARAGRAPH : String :=
  "This is a sample paragraph response. It contains multiple sentences to demonstrate a longer form answer that would be appropriate for a text area field in a form."

/-- `AnswerAgent._generate_paragraph_answer`: strip the generated text; on
any generator exception return the fixed sample paragraph. -/
def generate_paragraph_answer (resp : Except String String) : String :=
  match resp with
  | Except.ok t => pyStrip t
  | Except.error _ => SAMPLE_PARAGRAPH

/-- The literal of the regex `Selected option:\s*(\d+)`. -/
def litSelected : List Char := "Selected option:".toList

/-- Match `Selected option:\s*(\d+)` anchored at the head of `cs`, returning
the parsed captured number. -/
def matchSelectedAt (cs : List Char) : Option Nat :=
  if litSelected.isPrefixOf cs then
    let rest := (cs.drop litSelected.length).dropWhile Char.isWhitespace
    let ds := rest.takeWhile Char.isDigit
    if ds.isEmpty then none else some (natOfDigits ds)
  else none

/-- `re.search(r"Selected option:\s*(\d+)", text)`: leftmost match. -/
def searchSelected : List Char → Option Nat
  | [] => none
  | c :: cs =>
    match matchSelectedAt (c :: cs) with
    | some n => some n
    | none => searchSelected cs

/-- The raw-integer-token scan of `_select_multiple_choice_answer`: first
word that `isdigit()` and lies in `1..n`, returned 0-based. -/
def scanTokens (n : Nat) : List String → Option Nat
  | [] => none
  | w :: ws =>
    if pyIsdigit w = true ∧ 1 ≤ pyInt w ∧ pyInt w ≤ n then some (pyInt w - 1)
    else scanTokens n ws

/-- `AnswerAgent._select_multiple_choice_answer`.  The oracle `resp` stands
for the generator call made inside the `try` block; the surrounding
`except` returns 0. -/
def select_multiple_choice_answer (rng : PyRandom) (resp : Except String String)
    (q : Question) : Nat :=
  let options := q.options
  if options.length = 0 then 0
  else if options.length < 4 ∧ rng.rfloat < pyFloat_0_3 then
    rng.randint 0 (options.length - 1)
  else
    match resp with
    | Except.error _ => 0
    | Except.ok t =>
      let answer_text := pyStrip t
      match searchSelected answer_text.toList with
      | some option_num =>
        if 1 ≤ option_num ∧ option_num ≤ options.length then option_num - 1
        else 0
      | none =>
        let selected_index :=
          match scanTokens options.length (pySplit answer_text) with
          | some i => i
          | none => 0
        if selected_index = 0 ∧ 1 < options.length then
          rng.randint 0 (options.length - 1)
        else selected_index

/-- `AnswerAgent._select_dropdown_answer` delegates to the multiple-choice
selector. -/
def select_dropdown_answer (rng : PyRandom) (resp : Except String String)
    (q : Question) : Nat :=
  select_multiple_choice_answer rng resp q

/-- Character class `[\d,\s]` of the checkbox regex. -/
def isNumClass (c : Char) : Bool := c.isDigit || c = ',' || c.isWhitespace

/-- The literal of the regex `Selected options?:\s*([\d,\s]+)`. -/
def litSelectedOpt : List Char := "Selected option".toList

/-- Match `Selected options?:\s*([\d,\s]+)` anchored at the head of `cs`,
returning the run of digit/comma/whitespace characters (the digit runs of
that run coincide with those of Python's capture group). -/
def matchSelectedOptsAt (cs : List Char) : Option (List Char) :=
  if litSelectedOpt.isPrefixOf cs then
    match cs.drop litSelectedOpt.length with
    | 's' :: ':' :: r =>
      let run := r.takeWhile isNumClass
      if run.isEmpty then none else some run
    | ':' :: r =>
      let run := r.takeWhile isNumClass
      if run.isEmpty then none else some run
    | _ => none
  else none

/-- Leftmost match of the checkbox selection pattern. -/
def searchSelectedOpts : List Char → Option (List Char)
  | [] => none
  | c :: cs =>
    match matchSelectedOptsAt (c :: cs) with
    | some run => some run
    | none => searchSelectedOpts cs

/-- Helper for `re.finditer(r'\d+', ...)`: collect maximal digit runs
(`acc` is the current run, reversed). -/
def digitRunsGo (acc : List Char) : List Char → List (List Char)
  | [] => if acc.isEmpty then [] else [acc.reverse]
  | c :: cs =>
    if c.isDigit then digitRunsGo (c :: acc) cs
    else if acc.isEmpty then digitRunsGo [] cs
    else acc.reverse :: digitRunsGo [] cs

/-- `re.finditer(r'\d+', s)`: all maximal digit runs. -/
def digitRuns (cs : List Char) : List (List Char) := digitRunsGo [] cs

/-- The parse step of `_select_checkbox_answers`: numbers extracted from the
`Selected options: ...` capture, kept 0-based when in `1..n`. -/
def parseSelectedOptions (n : Nat) (answer_text : String) : List Nat :=
  match searchSelectedOpts answer_text.toList with
  | none => []
  | some run =>
    ((digitRuns run).map natOfDigits).foldl
      (fun acc num => if 1 ≤ num ∧ num ≤ n then acc ++ [num - 1] else acc) []

/-- The few-options branch of `_select_checkbox_answers`: select 1 to
`min 2 n` options at random. -/
def checkbox_small (rng : PyRandom) (n : Nat) : List Nat :=
  rng.sample n (rng.randint 1 (min 2 n))

/-- The many-options branch of `_select_checkbox_answers` on a generator
text `t`: parse the AI selection, falling back to a random sample of 1 to
`min 3 n` options when nothing parses. -/
def checkbox_large (rng : PyRandom) (t : String) (n : Nat) : List Nat :=
  let selected_indices := parseSelectedOptions n (pyStrip t)
  if selected_indices.isEmpty then rng.sample n (rng.randint 1 (min 3 n))
  else selected_indices

/-- `AnswerAgent._select_checkbox_answers`.  The generator is consulted only
when more than 3 options exist; the `except` handler returns `[0]` for a
non-empty option list; the trailing guard replays the source's
"ensure we always select at least one option" step.  (The source's logging
comprehension `[options[i] for i in selected_indices]` is omitted; every
produced index is in range, so it cannot raise.) -/
def select_checkbox_answers (rng : PyRandom) (resp : Except String String)
    (q : Question) : List Nat :=
  let options := q.options
  if options.length = 0 then []
  else if 3 < options.length then
    match resp with
    | Except.error _ => [0]
    | Except.ok t =>
      let selected_indices := checkbox_large rng t options.length
      if selected_indices.isEmpty then [0] else selected_indices
  else
    let selected_indices := checkbox_small rng options.length
    if selected_indices.isEmpty then [0] else selected_indices

/-- `AnswerAgent._generate_fallback_answer`. -/
def generate_fallback_answer (q : Question) : PyVal :=
  if q.qtype = QT_TEXT then PyVal.str "Fallback response"
  else if q.qtype = QT_PARAGRAPH then
    PyVal.str "This is a fallback response for a paragraph question. It is provided when the AI generation fails for some reason."
  else if q.qtype = QT_MULTIPLE_CHOICE ∨ q.qtype = QT_DROPDOWN then PyVal.int 0
  else if q.qtype = QT_CHECKBOX then
    if q.options.length = 0 then PyVal.list [] else PyVal.list [0]
  else PyVal.str ""

/-- `AnswerAgent.generate_answer`: dispatch on the question-type string.
Each branch's own `try` block already absorbs every generator exception, so
the embedded branches are total; the outer `except` (the fallback) is not
reachable from a generator failure. -/
def generate_answer (rng : PyRandom) (resp : Except String String)
    (q : Question) : PyVal :=
  if q.qtype = QT_TEXT then PyVal.str (generate_text_answer resp)
  else if q.qtype = QT_PARAGRAPH then PyVal.str (generate_paragraph_answer resp)
  else if q.qtype = QT_MULTIPLE_CHOICE then
    PyVal.int (select_multiple_choice_answer rng resp q)
  else if q.qtype = QT_CHECKBOX then
    PyVal.list (select_checkbox_answers rng resp q)
  else if q.qtype = QT_DROPDOWN then
    PyVal.int (select_dropdown_answer rng resp q)
  else PyVal.str ""

/-! ## NavigationAgent (`src/agents/navigation_agent.py`)

`navigate_next` is driven by one page observation: whether a completion
indicator is visible, whether `_find_button` resolves a Submit / Next
button (an element that is displayed and enabled), and whether clicking the
found button succeeds or raises.  The instance attribute
`next_page_attempts` is passed and returned explicitly; the click actually
issued is recorded as part of the result (it is the observable effect of
the call). -/

inductive BtnKind where
  | submit
  | next
deriving DecidableEq

structure NavEnv where
  completed : Bool
  submit_button : Bool
  next_button : Bool
  submit_click_ok : Bool
  next_click_ok : Bool
deriving DecidableEq

structure NavResult where
  returned : Bool
  attempts : Nat
  clicked : Option BtnKind
deriving DecidableEq

/-- `NavigationAgent.__init__` sets `self.max_attempts = 3`. -/
def max_attempts : Nat := 3

/-- `NavigationAgent.navigate_next`: completion check first, then Submit
with priority over Next; a failed click bumps `next_page_attempts` and, at
the ceiling, returns `False` (the log reads "assuming form is complete");
a successful Next click resets the counter. -/
def navigate_next (env : NavEnv) (next_page_attempts : Nat) : NavResult :=
  if env.completed then
    { returned := false, attempts := next_page_attempts, clicked := none }
  else if env.submit_button then
    if env.submit_click_ok then
      { returned := false, attempts := next_page_attempts,
        clicked := some BtnKind.submit }
    else
      let a := next_page_attempts + 1
      if max_attempts ≤ a then
        { returned := false, attempts := a, clicked := some BtnKind.submit }
      else
        { returned := true, attempts := a, clicked := some BtnKind.submit }
  else if env.next_button then
    if env.next_click_ok then
      { returned := true, attempts := 0, clicked := some BtnKind.next }
    else
      let a := next_page_attempts + 1
      if max_attempts ≤ a then
        { returned := false, attempts := a, clicked := some BtnKind.next }
      else
        { returned := true, attempts := a, clicked := some BtnKind.next }
  else
    { returned := false, attempts := next_page_attempts, clicked := none }

/-! ## ReasoningAgent (`src/agents/reasoning_agent.py`) -/

/-- `ReasoningAgent._get_option_text`: the stripped element text, or the
placeholder `"Option"` when it is empty (the JavaScript fallback path also
ends in `or "Option"`). -/
def get_option_text (e : Elem) : String :=
  let t := pyStrip e.text
  if t.isEmpty then "Option" else t

/-- Grouping loop of `_group_elements_by_question`: an element whose
`y`-position is within strictly fewer than 50 pixels of its predecessor
joins the current group, otherwise it starts a new one. -/
def groupGo (prev : Elem) (current : List Elem) : List Elem → List (List Elem)
  | [] => [current]
  | e :: rest =>
    if (e.y - prev.y).natAbs < 50 then groupGo e (current ++ [e]) rest
    else current :: groupGo e [e] rest

/-- `ReasoningAgent._group_elements_by_question`. -/
def group_elements_by_question : List Elem → List (List Elem)
  | [] => []
  | e :: rest => groupGo e [e] rest

/-- The element-level observations the secondary extraction path makes of
the page, each via an `ElementFinder` query; `label_of` is the result of
`_find_label_for_element` (a JavaScript probe at the driver boundary,
returning `""` when no label is found). -/
structure PageElems where
  text_inputs : List Elem
  text_areas : List Elem
  radio_options : List Elem
  checkbox_options : List Elem
  dropdowns : List Elem
  dropdown_opts : List Elem
  label_of : Elem → String

/-- Python `label or default`: the label when non-empty, else the
synthesized positional label. -/
def labelOr (label : String) (dflt : String) : String :=
  if label.isEmpty then dflt else label

/-- `ReasoningAgent._extract_questions_by_elements`: the structural-drift
fallback.  Text inputs, then text areas, then proximity-grouped radios,
then proximity-grouped checkboxes, then dropdowns. -/
def extract_questions_by_elements (env : PageElems) : List Question :=
  let textQs := env.text_inputs.enum.map fun p =>
    { text := labelOr (env.label_of p.2) ("Text Question " ++ toString (p.1 + 1)),
      qtype := QT_TEXT, options := [], elements := [p.2], required := none }
  let paraQs := env.text_areas.enum.map fun p =>
    { text := labelOr (env.label_of p.2)
        ("Paragraph Question " ++ toString (p.1 + 1)),
      qtype := QT_PARAGRAPH, options := [], elements := [p.2],
      required := none }
  let radioQs :=
    (group_elements_by_question env.radio_options).enum.filterMap fun p =>
      match p.2 with
      | [] => none
      | e :: es => some
        { text := labelOr (env.label_of e)
            ("Multiple Choice Question " ++ toString (p.1 + 1)),
          qtype := QT_MULTIPLE_CHOICE,
          options := (e :: es).map get_option_text,
          elements := e :: es, required := none }
  let checkQs :=
    (group_elements_by_question env.checkbox_options).enum.filterMap fun p =>
      match p.2 with
      | [] => none
      | e :: es => some
        { text := labelOr (env.label_of e)
            ("Checkbox Question " ++ toString (p.1 + 1)),
          qtype := QT_CHECKBOX,
          options := (e :: es).map get_option_text,
          elements := e :: es, required := none }
  let dropQs := env.dropdowns.enum.map fun p =>
    { text := labelOr (env.label_of p.2)
        ("Dropdown Question " ++ toString (p.1 + 1)),
      qtype := QT_DROPDOWN,
      options := (env.dropdown_opts.map get_option_text).filter
        (fun s => !s.isEmpty),
      elements := [p.2], required := none }
  textQs ++ paraQs ++ radioQs ++ checkQs ++ dropQs

/-- The probes `_classify_question` runs inside one question's container
(each an `ElementFinder.find_elements` call), plus whether the container
matches `FormHandler.REQUIRED_INDICATOR_XPATH` — recorded here because the
specification talks about it; no code ever reads it. -/
structure Container where
  text_inputs : List Elem
  textareas : List Elem
  radios : List Elem
  checkboxes : List Elem
  listboxes : List Elem
  listbox_options : List Elem
  required_indicator : Bool

/-- `ReasoningAgent._classify_question`: fixed priority order
text input → textarea → radio → checkbox → listbox → unknown. -/
def classify_question (c : Container) : String × List Elem × List String :=
  if !c.text_inputs.isEmpty then (QT_TEXT, c.text_inputs, [])
  else if !c.textareas.isEmpty then (QT_PARAGRAPH, c.textareas, [])
  else if !c.radios.isEmpty then
    (QT_MULTIPLE_CHOICE, c.radios, c.radios.map get_option_text)
  else if !c.checkboxes.isEmpty then
    (QT_CHECKBOX, c.checkboxes, c.checkboxes.map get_option_text)
  else if !c.listboxes.isEmpty then
    (QT_DROPDOWN, c.listboxes, c.listbox_options.map get_option_text)
  else (QT_UNKNOWN, [], [])

/-- A page as `ReasoningAgent.extract_questions` observes it: the
question-title elements found by `get_question_texts` (raw `.text` paired
with the container the classifier probes), and the raw element scan used by
the fallback path. -/
structure PageEnv where
  question_texts : List (String × Container)
  elems : PageElems

/-- `ReasoningAgent.extract_questions`: the primary label-driven scan;
when it finds no question-title elements, the element-based fallback.
Blank titles are skipped; the built dict has exactly the keys
`text`/`type`/`options`/`elements` (no `required` key). -/
def extract_questions (page : PageEnv) : List Question :=
  if page.question_texts.isEmpty then extract_questions_by_elements page.elems
  else
    page.question_texts.filterMap fun p =>
      let question_text := pyStrip p.1
      if question_text.isEmpty then none
      else
        let r := classify_question p.2
        some { text := question_text, qtype := r.1, options := r.2.2,
               elements := r.2.1, required := none }

/-! ## FormHandler (`src/utils/form_handler.py`) -/

/-- One question container as `FormHandler._extract_question_data` observes
it: the title element's text (`none` models `NoSuchElementException`), the
option elements found inside it, and — as for `Container` — whether the
container matches `REQUIRED_INDICATOR_XPATH` (declared at class level,
consulted by nothing). -/
structure FHContainer where
  title_text : Option String
  radio_opts : List Elem
  checkbox_opts : List Elem
  dropdown_present : Bool
  dropdown_page_opts : List Elem
  required_indicator : Bool

/-- The dict built by `FormHandler._extract_question_data`: keys `element`,
`text`, `options`; `required` again models the absent `required` key. -/
structure FHQuestion where
  text : String
  options : List String
  required : Option Bool
deriving DecidableEq

/-- `FormHandler._extract_question_data`: extract the title (a missing or
blank title yields `None`), then overwrite `options` in turn from radio,
checkbox and dropdown probes. -/
def fh_extract_question_data (c : FHContainer) : Option FHQuestion :=
  match c.title_text with
  | none => none
  | some t =>
    let question_text := pyStrip t
    if question_text.isEmpty then none
    else
      let opts0 : List String := []
      let opts1 :=
        if !c.radio_opts.isEmpty then
          (c.radio_opts.map (fun e => pyStrip e.text)).filter
            (fun s => !s.isEmpty)
        else opts0
      let opts2 :=
        if !c.checkbox_opts.isEmpty then
          (c.checkbox_opts.map (fun e => pyStrip e.text)).filter
            (fun s => !s.isEmpty)
        else opts1
      let opts3 :=
        if c.dropdown_present then
          (c.dropdown_page_opts.map (fun e => pyStrip e.text)).filter
            (fun s => !s.isEmpty)
        else opts2
      some { text := question_text, options := opts3, required := none }

/-- The required-flag rule exactly as the specification words it
("true if the extracted label text contains an asterisk marker or the
container matches a known required-style indicator").  This is the
spec-side definition used to compare the claim against the code. -/
def specRequiredFlag (label : String) (indicator : Bool) : Bool :=
  label.toList.contains '*' || indicator

/-! ## BrowserHandler.fill_answer (`src/browser/browser_handler.py`) -/

/-- The driver-boundary outcomes `fill_answer` depends on: the result of
`ElementFinder.click_element` per element, and the option elements found on
the page after a dropdown has been opened. -/
structure FillEnv where
  click_ok : Elem → Bool
  dropdown_options : List Elem

/-- Checkbox loop of `BrowserHandler.fill_answer`: click every element at
an index of the answer; an out-of-range index or a failed click flips
`success` to `False` but later clicks still run. -/
def fill_checkbox_loop (env : FillEnv) (elements : List Elem)
    (idxs : List Nat) : Bool :=
  idxs.foldl
    (fun success idx =>
      if h : idx < elements.length then
        if env.click_ok (elements.get ⟨idx, h⟩) then success else false
      else false)
    true

/-- `BrowserHandler.fill_answer`: type-directed DOM interaction.  Text and
paragraph clears/typing are driver actions assumed to succeed (the claims
quantify over runs where fills succeed); choice types check the index
bounds exactly as the source does. -/
def fill_answer (env : FillEnv) (q : Question) (answer : PyVal) : Bool :=
  if q.elements.isEmpty then false
  else if q.qtype = QT_TEXT ∨ q.qtype = QT_PARAGRAPH then true
  else if q.qtype = QT_MULTIPLE_CHOICE then
    match answer with
    | PyVal.int n =>
      if h : n < q.elements.length then env.click_ok (q.elements.get ⟨n, h⟩)
      else false
    | _ => false
  else if q.qtype = QT_CHECKBOX then
    match answer with
    | PyVal.list idxs => fill_checkbox_loop env q.elements idxs
    | _ => false
  else if q.qtype = QT_DROPDOWN then
    match answer with
    | PyVal.int n =>
      match q.elements with
      | [] => false
      | e :: _ =>
        if env.click_ok e then
          if h : n < env.dropdown_options.length then
            env.click_ok (env.dropdown_options.get ⟨n, h⟩)
          else false
        else false
    | _ => false
  else false

/-! ## FormFiller (`src/form_filler.py`) -/

/-- The statistics attributes the orchestrator accumulates. -/
structure FillerStats where
  current_page : Nat
  questions_answered : Nat
  total_questions : Nat
deriving DecidableEq

/-- The oracles one page-processing pass consumes: the page observation,
the generator response and random draws for the k-th question of the page,
and the fill-time driver outcomes. -/
structure PageRun where
  page : PageEnv
  resp : Nat → Except String String
  rng : Nat → PyRandom
  fill : FillEnv

/-- The per-question loop of `FormFiller.process_current_page`: generate an
answer, fill it, and count it when the fill reports success. -/
def process_questions (run : PageRun) (k : Nat) (answered : Nat) :
    List Question → Nat
  | [] => answered
  | q :: rest =>
    let answer := generate_answer (run.rng k) (run.resp k) q
    let filled := fill_answer run.fill q answer
    process_questions run (k + 1)
      (if filled then answered + 1 else answered) rest

/-- `FormFiller.process_current_page`: extract the page's questions (a page
with none is a failure), answer and fill each, and accumulate the counters. -/
def process_current_page (run : PageRun) (st : FillerStats) :
    Bool × FillerStats :=
  let questions := extract_questions run.page
  if questions.isEmpty then (false, st)
  else
    let answered := process_questions run 0 st.questions_answered questions
    (true,
      { st with questions_answered := answered,
                total_questions := st.total_questions + questions.length })

/-- Every attribute the class `NavigationAgent`
(`src/agents/navigation_agent.py`) defines, at class level or in
`__init__`.  Python resolves `self.navigation_agent.<name>` against exactly
these. -/
def navigation_agent_attributes : List String :=
  ["NEXT_BUTTON_IDENTIFIERS", "SUBMIT_BUTTON_IDENTIFIERS",
   "COMPLETION_INDICATORS", "__init__", "navigate_next", "is_form_completed",
   "_find_button", "_wait_for_page_load", "_wait_for_form_completion",
   "form_handler", "driver", "next_page_attempts", "max_attempts"]

/-- Python attribute lookup on the `NavigationAgent` instance: `false`
means the access raises `AttributeError`. -/
def navigation_agent_has_attr (name : String) : Bool :=
  navigation_agent_attributes.contains name

/-- `FormFiller.fill_form`, first loop iteration.  After a page is
processed the source evaluates
`self.navigation_agent.determine_next_action()`; `NavigationAgent` defines
no attribute of that name, so the lookup raises `AttributeError`, the
enclosing `except Exception` catches it, and `fill_form` returns `False`.
The branch guarded by a successful lookup is therefore never taken (there
is no method body in the repository to give it semantics), and no second
loop iteration is reachable. -/
def fill_form (nav_ok : Bool) (run1 : PageRun) : Bool × FillerStats :=
  let st0 : FillerStats :=
    { current_page := 0, questions_answered := 0, total_questions := 0 }
  if !nav_ok then (false, st0)
  else
    let st1 := { st0 with current_page := st0.current_page + 1 }
    match process_current_page run1 st1 with
    | (false, st2) => (false, st2)
    | (true, st2) =>
      if navigation_agent_has_attr "determine_next_action" then (true, st2)
      else (false, st2)

/-! ## The specification's two-page scenario

Page 1 carries one short-text question and one 3-option single-choice
question; all fills and clicks succeed; the generator answers sensibly. -/

def shortTextContainer : Container :=
  { text_inputs := [{ y := 100, text := "" }], textareas := [], radios := [],
    checkboxes := [], listboxes := [], listbox_options := [],
    required_indicator := false }

def choiceContainer : Container :=
  { text_inputs := [], textareas := [],
    radios := [{ y := 200, text := "Red" }, { y := 240, text := "Green" },
               { y := 280, text := "Blue" }],
    checkboxes := [], listboxes := [], listbox_options := [],
    required_indicator := false }

def emptyPageElems : PageElems :=
  { text_inputs := [], text_areas := [], radio_options := [],
    checkbox_options := [], dropdowns := [], dropdown_opts := [],
    label_of := fun _ => "" }

def scenarioPage1 : PageEnv :=
  { question_texts :=
      [("What is your name?", shortTextContainer),
       ("Pick a colour", choiceContainer)],
    elems := emptyPageElems }

def scenarioRun1 : PageRun :=
  { page := scenarioPage1,
    resp := fun k => if k = 0 then Except.ok "Alice"
                     else Except.ok "Selected option: 2",
    rng := fun _ => theRandom,
    fill := { click_ok := fun _ => true, dropdown_options := [] } }

/-! ## Helper lemmas -/

/-- The raw-token scan only ever yields an in-range 0-based index. -/
theorem scanTokens_lt {n i : Nat} :
    ∀ {ws : List String}, scanTokens n ws = some i → i < n := by
  intro ws
  induction ws with
  | nil => intro h; simp [scanTokens] at h
  | cons w ws ih =>
    intro h
    by_cases hc : pyIsdigit w = true ∧ 1 ≤ pyInt w ∧ pyInt w ≤ n
    · rw [scanTokens, if_pos hc, Option.some.injEq] at h
      omega
    · rw [scanTokens, if_neg hc] at h
      exact ih h

/-- The guarded fold of the checkbox parse keeps every element below `n`. -/
theorem foldGuard_lt (n : Nat) :
    ∀ (l : List Nat) (acc : List Nat), (∀ x ∈ acc, x < n) →
      ∀ x ∈ l.foldl
        (fun acc num => if 1 ≤ num ∧ num ≤ n then acc ++ [num - 1] else acc)
        acc, x < n := by
  intro l
  induction l with
  | nil => intro acc ha x hx; exact ha x hx
  | cons m ms ih =>
    intro acc ha x hx
    rw [List.foldl_cons] at hx
    by_cases hc : 1 ≤ m ∧ m ≤ n
    · rw [if_pos hc] at hx
      refine ih _ ?_ x hx
      intro y hy
      rcases List.mem_append.mp hy with hy | hy
      · exact ha y hy
      · rw [List.mem_singleton] at hy
        omega
    · rw [if_neg hc] at hx
      exact ih acc ha x hx

/-- Every index the checkbox parse returns is in range. -/
theorem parseSelectedOptions_lt (n : Nat) (t : String) :
    ∀ x ∈ parseSelectedOptions n t, x < n := by
  intro x hx
  unfold parseSelectedOptions at hx
  cases h : searchSelectedOpts t.toList with
  | none => rw [h] at hx; simp at hx
  | some run =>
    rw [h] at hx
    exact foldGuard_lt n _ [] (by simp) x hx

/-- On every path of the multiple-choice selector the returned index is a
valid offset when at least one option exists. -/
theorem select_multiple_choice_answer_lt (rng : PyRandom)
    (resp : Except String String) (q : Question)
    (h : 0 < q.options.length) :
    select_multiple_choice_answer rng resp q < q.options.length := by
  unfold select_multiple_choice_answer
  simp only
  split
  · omega
  · split
    · have := rng.randint_le 0 (q.options.length - 1) (Nat.zero_le _)
      omega
    · split
      · omega
      · split
        · split <;> omega
        · split
          · have := rng.randint_le 0 (q.options.length - 1) (Nat.zero_le _)
            omega
          · split
            · next heq => exact scanTokens_lt heq
            · omega

/-- On every path of the checkbox selector the result is non-empty and
in range when at least one option exists. -/
theorem select_checkbox_answers_spec (rng : PyRandom)
    (resp : Except String String) (q : Question)
    (h : 0 < q.options.length) :
    select_checkbox_answers rng resp q ≠ [] ∧
      ∀ i ∈ select_checkbox_answers rng resp q, i < q.options.length := by
  have hlarge : ∀ t, ∀ x ∈ checkbox_large rng t q.options.length,
      x < q.options.length := by
    intro t x hx
    unfold checkbox_large at hx
    simp only at hx
    split at hx
    · have h1 : 1 ≤ min 3 q.options.length := by omega
      have hk := rng.randint_le 1 (min 3 q.options.length) h1
      exact rng.sample_mem q.options.length _
        (le_trans hk (min_le_right 3 q.options.length)) x hx
    · exact parseSelectedOptions_lt _ _ x hx
  have h1 : 1 ≤ min 2 q.options.length := by omega
  have hk1 := rng.randint_ge 1 (min 2 q.options.length) h1
  have hk2 := rng.randint_le 1 (min 2 q.options.length) h1
  have hkn : rng.randint 1 (min 2 q.options.length) ≤ q.options.length :=
    le_trans hk2 (min_le_right 2 q.options.length)
  have hsmall_ne : checkbox_small rng q.options.length ≠ [] := by
    intro hnil
    have hlen := rng.sample_len q.options.length _ hkn
    unfold checkbox_small at hnil
    rw [hnil] at hlen
    simp at hlen
    omega
  have hsmall_mem : ∀ x ∈ checkbox_small rng q.options.length,
      x < q.options.length := by
    intro x hx
    unfold checkbox_small at hx
    exact rng.sample_mem q.options.length _ hkn x hx
  unfold select_checkbox_answers
  simp only
  split
  · omega
  · split
    · split
      · exact ⟨by simp, by intro i hi; rw [List.mem_singleton] at hi; omega⟩
      · split
        · exact ⟨by simp, by intro i hi; rw [List.mem_singleton] at hi; omega⟩
        · next t hne =>
          refine ⟨by simpa using hne, hlarge t⟩
    · split
      · exact ⟨by simp, by intro i hi; rw [List.mem_singleton] at hi; omega⟩
      · next hne =>
        refine ⟨by simpa using hne, hsmall_mem⟩

/-- The multiple-choice selector returns 0 whenever the generator call
raises, provided the random short-circuit is not taken. -/
theorem select_mc_error (rng : PyRandom) (e : String) (q : Question)
    (hns : ¬(q.options.length < 4 ∧ rng.rfloat < pyFloat_0_3)) :
    select_multiple_choice_answer rng (Except.error e) q = 0 := by
  unfold select_multiple_choice_answer
  simp only
  rw [if_neg hns]
  split <;> rfl

/-- The checkbox selector returns `[0]` whenever the generator call raises
(the generator is consulted only for more than 3 options). -/
theorem select_cb_error (rng : PyRandom) (e : String) (q : Question)
    (h3 : 3 < q.options.length) :
    select_checkbox_answers rng (Except.error e) q = [0] := by
  unfold select_checkbox_answers
  simp only
  rw [if_neg (by omega), if_pos h3]

/-- The text strategy never produces more than 30 characters. -/
theorem generate_text_answer_length_le (resp : Except String String) :
    (generate_text_answer resp).length ≤ 30 := by
  cases resp with
  | error e => exact (by decide : ("Sample response" : String).length ≤ 30)
  | ok t =>
    simp only [generate_text_answer]
    split
    · have hl : (pyTake (pyStrip t) 30).length =
          ((pyStrip t).toList.take 30).length := rfl
      rw [hl, List.length_take]
      omega
    · omega

/-! ## Claims -/

/-- C3: for every question whose type the dispatcher knows, a raised
generator exception never propagates out of `generate_answer`; instead a
deterministic, type-appropriate fallback is returned — the fixed strings of
the text branches, index 0 for single-select, `[0]` for multi-select.
(The single-select hypothesis excludes the random short-circuit and the
multi-select hypothesis requires more than 3 options, because only on those
paths is the generator called at all; on the short-circuit paths no
generator exception can arise.) -/
theorem c3_generator_failure_fallbacks (rng : PyRandom) (e : String)
    (q : Question) :
    (q.qtype = QT_TEXT →
      generate_answer rng (Except.error e) q = PyVal.str "Sample response") ∧
    (q.qtype = QT_PARAGRAPH →
      generate_answer rng (Except.error e) q = PyVal.str SAMPLE_PARAGRAPH) ∧
    ((q.qtype = QT_MULTIPLE_CHOICE ∨ q.qtype = QT_DROPDOWN) →
      ¬(q.options.length < 4 ∧ rng.rfloat < pyFloat_0_3) →
      generate_answer rng (Except.error e) q = PyVal.int 0) ∧
    (q.qtype = QT_CHECKBOX → 3 < q.options.length →
      generate_answer rng (Except.error e) q = PyVal.list [0]) := by
  refine ⟨?_, ?_, ?_, ?_⟩
  · intro ht
    simp [generate_answer, ht, generate_text_answer]
  · intro hp
    simp [generate_answer, hp, QT_TEXT, QT_PARAGRAPH, generate_paragraph_answer]
  · intro hq hns
    rcases hq with hq | hq
    · simp [generate_answer, hq, QT_TEXT, QT_PARAGRAPH, QT_MULTIPLE_CHOICE,
        select_mc_error rng e q hns]
    · simp [generate_answer, hq, QT_TEXT, QT_PARAGRAPH, QT_MULTIPLE_CHOICE,
        QT_CHECKBOX, QT_DROPDOWN, select_dropdown_answer,
        select_mc_error rng e q hns]
  · intro hc h3
    simp [generate_answer, hc, QT_TEXT, QT_PARAGRAPH, QT_MULTIPLE_CHOICE,
      QT_CHECKBOX, select_cb_error rng e q h3]

def wQText : Question :=
  { text := "What is your name?", qtype := QT_TEXT, options := [],
    elements := [], required := none }

def wQPara : Question :=
  { text := "Tell us more", qtype := QT_PARAGRAPH, options := [],
    elements := [], required := none }

def wQMC : Question :=
  { text := "Pick one", qtype := QT_MULTIPLE_CHOICE,
    options := ["a", "b", "c", "d"], elements := [], required := none }

def wQCB : Question :=
  { text := "Pick many", qtype := QT_CHECKBOX,
    options := ["a", "b", "c", "d"], elements := [], required := none }

def wQDD0 : Question :=
  { text := "Select", qtype := QT_DROPDOWN, options := [],
    elements := [], required := none }

theorem c3_generator_failure_fallbacks_witness :
    generate_answer theRandom (Except.error "boom") wQText =
      PyVal.str "Sample response" ∧
    generate_answer theRandom (Except.error "boom") wQPara =
      PyVal.str SAMPLE_PARAGRAPH ∧
    generate_answer theRandom (Except.error "boom") wQMC = PyVal.int 0 ∧
    generate_answer theRandom (Except.error "boom") wQCB = PyVal.list [0] :=
  ⟨(c3_generator_failure_fallbacks theRandom "boom" wQText).1 rfl,
   (c3_generator_failure_fallbacks theRandom "boom" wQPara).2.1 rfl,
   (c3_generator_failure_fallbacks theRandom "boom" wQMC).2.2.1
     (Or.inl rfl) (by decide),
   (c3_generator_failure_fallbacks theRandom "boom" wQCB).2.2.2
     rfl (by decide)⟩

/-- C4: for every single-choice or dropdown question with at least one
option, the index the dispatcher returns is a valid offset into the option
list on every path (random short-circuit, pattern parse, raw token scan,
random default, and error fallback — the proof splits on all of them). -/
theorem c4_single_select_index_in_range (rng : PyRandom)
    (resp : Except String String) (q : Question)
    (hq : q.qtype = QT_MULTIPLE_CHOICE ∨ q.qtype = QT_DROPDOWN)
    (hn : 0 < q.options.length) :
    ∃ i, generate_answer rng resp q = PyVal.int i ∧ i < q.options.length := by
  rcases hq with hq | hq
  · exact ⟨_, by simp [generate_answer, hq, QT_TEXT, QT_PARAGRAPH,
      QT_MULTIPLE_CHOICE],
      select_multiple_choice_answer_lt rng resp q hn⟩
  · exact ⟨_, by simp [generate_answer, hq, QT_TEXT, QT_PARAGRAPH,
      QT_MULTIPLE_CHOICE, QT_CHECKBOX, QT_DROPDOWN, select_dropdown_answer],
      select_multiple_choice_answer_lt rng resp q hn⟩

theorem c4_single_select_index_in_range_witness :
    ∃ i, generate_answer theRandom (Except.ok "Selected option: 2") wQMC =
      PyVal.int i ∧ i < wQMC.options.length :=
  c4_single_select_index_in_range theRandom (Except.ok "Selected option: 2")
    wQMC (Or.inl rfl) (by decide)

/-- C5: for every checkbox question with at least one option, the
dispatcher returns a non-empty list of indices, each a valid offset into
the option list, on the generator-parse path, the random-sample paths and
the error-fallback path. -/
theorem c5_checkbox_nonempty_in_range (rng : PyRandom)
    (resp : Except String String) (q : Question)
    (hq : q.qtype = QT_CHECKBOX) (hn : 0 < q.options.length) :
    ∃ l, generate_answer rng resp q = PyVal.list l ∧ l ≠ [] ∧
      ∀ i ∈ l, i < q.options.length :=
  ⟨_, by simp [generate_answer, hq, QT_TEXT, QT_PARAGRAPH, QT_MULTIPLE_CHOICE,
      QT_CHECKBOX],
   (select_checkbox_answers_spec rng resp q hn).1,
   (select_checkbox_answers_spec rng resp q hn).2⟩

theorem c5_checkbox_nonempty_in_range_witness :
    ∃ l, generate_answer theRandom (Except.ok "Selected options: 1, 3") wQCB =
      PyVal.list l ∧ l ≠ [] ∧ ∀ i ∈ l, i < wQCB.options.length :=
  c5_checkbox_nonempty_in_range theRandom (Except.ok "Selected options: 1, 3")
    wQCB rfl (by decide)

/-- C6: a short-text answer never exceeds 30 characters, whatever text the
generator produces and whether or not generation succeeds. -/
theorem c6_short_text_at_most_30 (rng : PyRandom)
    (resp : Except String String) (q : Question) (hq : q.qtype = QT_TEXT) :
    ∃ s, generate_answer rng resp q = PyVal.str s ∧ s.length ≤ 30 :=
  ⟨_, by simp [generate_answer, hq], generate_text_answer_length_le resp⟩

theorem c6_short_text_at_most_30_witness :
    ∃ s, generate_answer theRandom
      (Except.ok "An extremely verbose reply that definitely exceeds the cap")
      wQText = PyVal.str s ∧ s.length ≤ 30 :=
  c6_short_text_at_most_30 theRandom
    (Except.ok "An extremely verbose reply that definitely exceeds the cap")
    wQText rfl

/-- C10 (implicit): for a single-choice or dropdown question whose option
list is empty, `generate_answer` returns the integer 0 on the normal path
and `_generate_fallback_answer` returns 0 on the error-fallback path, yet 0
is not a valid offset into the empty option list — the range invariant does
not extend to this edge case. -/
theorem c10_empty_options_returns_zero (rng : PyRandom)
    (resp : Except String String) (q : Question)
    (hq : q.qtype = QT_MULTIPLE_CHOICE ∨ q.qtype = QT_DROPDOWN)
    (h0 : q.options = []) :
    generate_answer rng resp q = PyVal.int 0 ∧
    generate_fallback_answer q = PyVal.int 0 ∧
    ¬(0 < q.options.length) := by
  have hlen : q.options.length = 0 := by rw [h0]; rfl
  have hsel : select_multiple_choice_answer rng resp q = 0 := by
    unfold select_multiple_choice_answer
    simp only
    rw [if_pos hlen]
  rcases hq with hq | hq
  · exact ⟨by simp [generate_answer, hq, QT_TEXT, QT_PARAGRAPH,
        QT_MULTIPLE_CHOICE, hsel],
      by simp [generate_fallback_answer, hq, QT_TEXT, QT_PARAGRAPH,
        QT_MULTIPLE_CHOICE],
      by omega⟩
  · exact ⟨by simp [generate_answer, hq, QT_TEXT, QT_PARAGRAPH,
        QT_MULTIPLE_CHOICE, QT_CHECKBOX, QT_DROPDOWN,
        select_dropdown_answer, hsel],
      by simp [generate_fallback_answer, hq, QT_TEXT, QT_PARAGRAPH,
        QT_MULTIPLE_CHOICE, QT_DROPDOWN],
      by omega⟩

theorem c10_empty_options_returns_zero_witness :
    generate_answer theRandom (Except.error "boom") wQDD0 = PyVal.int 0 ∧
    generate_fallback_answer wQDD0 = PyVal.int 0 ∧
    ¬(0 < wQDD0.options.length) :=
  c10_empty_options_returns_zero theRandom (Except.error "boom") wQDD0
    (Or.inr rfl) rfl

/-- C7: on every navigation cycle of a page that is not complete and that
exposes both a Submit and a Next affordance, `navigate_next` clicks the
Submit button, never the Next button (the submit probe runs first and its
branch never consults the Next button). -/
theorem c7_submit_priority (env : NavEnv) (a : Nat)
    (hc : env.completed = false) (hs : env.submit_button = true)
    (_hn : env.next_button = true) :
    (navigate_next env a).clicked = some BtnKind.submit := by
  unfold navigate_next
  rw [hc, hs]
  simp only [Bool.false_eq_true, if_false, if_true]
  split
  · rfl
  · split <;> rfl

theorem c7_submit_priority_witness :
    (navigate_next
      { completed := false, submit_button := true, next_button := true,
        submit_click_ok := true, next_click_ok := true } 0).clicked =
      some BtnKind.submit :=
  c7_submit_priority _ 0 rfl rfl rfl

/-- A page exposing only a Next button whose click always raises. -/
def alwaysFailNextEnv : NavEnv :=
  { completed := false, submit_button := false, next_button := true,
    submit_click_ok := true, next_click_ok := false }

/-- A last page whose Submit click succeeds. -/
def submitSuccessEnv : NavEnv :=
  { completed := false, submit_button := true, next_button := false,
    submit_click_ok := true, next_click_ok := true }

/-- C2 counterexample: the claim says exhausting the retry ceiling yields a
`Stuck` outcome that signals the orchestrator to abort rather than being
treated as completion.  In the code, the third failed click makes
`navigate_next` return `False` — literally the same value it returns after
a successful submission (the source logs "Max navigation attempts reached,
assuming form is complete") — so retry exhaustion is reported as
completion and no abort signal distinct from completion exists. -/
theorem c2_counterexample :
    (navigate_next alwaysFailNextEnv 2).returned = false ∧
    (navigate_next submitSuccessEnv 0).returned = false ∧
    (navigate_next alwaysFailNextEnv 2).returned =
      (navigate_next submitSuccessEnv 0).returned := by
  decide

/-- C2 (amended): with a click that always fails, `navigate_next` retries
(returns `True`) on the first two calls and gives up on the third — exactly
`max_attempts = 3` click attempts, not more, not fewer — but the third call
returns `False`, the very value a successful submission returns, so the
caller cannot distinguish a stuck run from a completed one; the machine has
no abort signal. -/
theorem c2_retry_ceiling_amended (env : NavEnv)
    (hc : env.completed = false) (hs : env.submit_button = false)
    (hn : env.next_button = true) (hk : env.next_click_ok = false) :
    navigate_next env 0 =
      { returned := true, attempts := 1, clicked := some BtnKind.next } ∧
    navigate_next env 1 =
      { returned := true, attempts := 2, clicked := some BtnKind.next } ∧
    navigate_next env 2 =
      { returned := false, attempts := 3, clicked := some BtnKind.next } ∧
    (navigate_next env 2).returned = (navigate_next submitSuccessEnv 0).returned := by
  refine ⟨?_, ?_, ?_, ?_⟩ <;>
    simp [navigate_next, hc, hs, hn, hk, max_attempts, submitSuccessEnv]

theorem c2_retry_ceiling_amended_witness :
    navigate_next alwaysFailNextEnv 0 =
      { returned := true, attempts := 1, clicked := some BtnKind.next } ∧
    navigate_next alwaysFailNextEnv 1 =
      { returned := true, attempts := 2, clicked := some BtnKind.next } ∧
    navigate_next alwaysFailNextEnv 2 =
      { returned := false, attempts := 3, clicked := some BtnKind.next } ∧
    (navigate_next alwaysFailNextEnv 2).returned =
      (navigate_next submitSuccessEnv 0).returned :=
  c2_retry_ceiling_amended alwaysFailNextEnv rfl rfl rfl rfl

/-- Every question the element-based fallback produces carries no
`required` key. -/
theorem extract_questions_by_elements_required_none (env : PageElems) :
    ∀ q ∈ extract_questions_by_elements env, q.required = none := by
  intro q hq
  simp only [extract_questions_by_elements, List.mem_append] at hq
  rcases hq with ((((hq | hq) | hq) | hq) | hq)
  · rcases List.mem_map.mp hq with ⟨p, _, rfl⟩; rfl
  · rcases List.mem_map.mp hq with ⟨p, _, rfl⟩; rfl
  · rcases List.mem_filterMap.mp hq with ⟨p, _, hf⟩
    rcases p with ⟨i, _ | ⟨e, es⟩⟩
    · simp at hf
    · simp only [Option.some.injEq] at hf
      rw [← hf]
  · rcases List.mem_filterMap.mp hq with ⟨p, _, hf⟩
    rcases p with ⟨i, _ | ⟨e, es⟩⟩
    · simp at hf
    · simp only [Option.some.injEq] at hf
      rw [← hf]
  · rcases List.mem_map.mp hq with ⟨p, _, rfl⟩; rfl

/-- C8 (amended): no extractor in the repository computes a required flag.
Both `ReasoningAgent.extract_questions` (primary and fallback path) and
`FormHandler._extract_question_data` build question records without any
`required` key, never consulting the label's asterisk or the declared (but
unused) `REQUIRED_INDICATOR_XPATH`. -/
theorem c8_no_required_flag_amended :
    (∀ page : PageEnv, ∀ q ∈ extract_questions page, q.required = none) ∧
    (∀ c r, fh_extract_question_data c = some r → r.required = none) := by
  constructor
  · intro page q hq
    unfold extract_questions at hq
    split at hq
    · exact extract_questions_by_elements_required_none page.elems q hq
    · rcases List.mem_filterMap.mp hq with ⟨p, _, hf⟩
      simp only at hf
      split at hf
      · simp at hf
      · simp only [Option.some.injEq] at hf
        rw [← hf]
  · intro c r h
    unfold fh_extract_question_data at h
    split at h
    · simp at h
    · simp only at h
      split at h
      · simp at h
      · simp only [Option.some.injEq] at h
        rw [← h]

/-- A container that matches the (dead) required-indicator XPath and holds
a text input. -/
def requiredContainer : Container :=
  { text_inputs := [{ y := 100, text := "" }], textareas := [], radios := [],
    checkboxes := [], listboxes := [], listbox_options := [],
    required_indicator := true }

/-- A page whose single question label carries an asterisk marker and whose
container matches the required-style indicator. -/
def requiredPage : PageEnv :=
  { question_texts := [("Name *", requiredContainer)],
    elems := emptyPageElems }

theorem c8_no_required_flag_amended_witness :
    (∀ q ∈ extract_questions requiredPage, q.required = none) ∧
    fh_extract_question_data
        { title_text := some "Name *", radio_opts := [], checkbox_opts := [],
          dropdown_present := false, dropdown_page_opts := [],
          required_indicator := true } =
      some { text := "Name *", options := [], required := none } :=
  ⟨fun q hq => c8_no_required_flag_amended.1 requiredPage q hq,
   by decide⟩

/-- C8 counterexample: the claim says the required flag is set to true
exactly when the label carries an asterisk or the container matches the
required-style indicator.  On a concrete page where both hold
(label `"Name *"`, indicator matched) the spec-side rule demands `true`,
but the extracted question record carries no required flag at all
(`required = none`, not `some true`): the code never computes it. -/
theorem c8_no_required_flag_counterexample :
    specRequiredFlag "Name *" requiredContainer.required_indicator = true ∧
    (extract_questions requiredPage).map Question.required = [none] ∧
    (extract_questions requiredPage).map Question.required ≠
      [some (specRequiredFlag "Name *" requiredContainer.required_indicator)] := by
  decide

/-- C9: when the label-driven scan finds no questions and the page holds
exactly 3 raw radio elements, each within the 50-pixel vertical threshold
of its predecessor, the secondary path groups them into exactly one
multiple-choice question with 3 options. -/
theorem c9_radio_proximity_grouping (page : PageEnv) (r1 r2 r3 : Elem)
    (hqt : page.question_texts = [])
    (hti : page.elems.text_inputs = [])
    (hta : page.elems.text_areas = [])
    (hco : page.elems.checkbox_options = [])
    (hdd : page.elems.dropdowns = [])
    (hro : page.elems.radio_options = [r1, r2, r3])
    (h12 : (r2.y - r1.y).natAbs < 50)
    (h23 : (r3.y - r2.y).natAbs < 50) :
    (extract_questions page).map (fun q => (q.qtype, q.options.length)) =
      [(QT_MULTIPLE_CHOICE, 3)] := by
  have hg : group_elements_by_question [r1, r2, r3] = [[r1, r2, r3]] := by
    simp [group_elements_by_question, groupGo, h12, h23]
  unfold extract_questions
  simp only [hqt, List.isEmpty_nil, if_true]
  unfold extract_questions_by_elements
  simp only [hti, hta, hco, hdd, hro, hg]
  have hge : group_elements_by_question ([] : List Elem) = [] := rfl
  simp [List.enum, hge]

/-- Three radio elements 30 pixels apart. -/
def radioFallbackPage : PageEnv :=
  { question_texts := [],
    elems :=
      { text_inputs := [], text_areas := [],
        radio_options := [{ y := 0, text := "A" }, { y := 30, text := "B" },
                          { y := 60, text := "C" }],
        checkbox_options := [], dropdowns := [], dropdown_opts := [],
        label_of := fun _ => "" } }

theorem c9_radio_proximity_grouping_witness :
    (extract_questions radioFallbackPage).map
        (fun q => (q.qtype, q.options.length)) =
      [(QT_MULTIPLE_CHOICE, 3)] :=
  c9_radio_proximity_grouping radioFallbackPage
    { y := 0, text := "A" } { y := 30, text := "B" } { y := 60, text := "C" }
    rfl rfl rfl rfl rfl rfl (by decide) (by decide)

/-- C1: the end-to-end claim fails on the code.  On the specified 2-page
form (page 1: one short-text question and one 3-option single-choice
question; every fill and click succeeds; the generator answers cleanly) the
orchestrator does answer exactly 2 questions on page 1, but it then
evaluates `self.navigation_agent.determine_next_action()` — an attribute
`NavigationAgent` does not define (its public methods are `navigate_next`
and `is_form_completed`) — so Python raises `AttributeError`, the
enclosing `except Exception` catches it, and `fill_form` returns `False`.
No `Advance` outcome after page 1, no `Completed` outcome after page 2, and
no `True` result are ever produced. -/
theorem c1_orchestrator_aborts_on_missing_method :
    navigation_agent_has_attr "navigate_next" = true ∧
    navigation_agent_has_attr "is_form_completed" = true ∧
    navigation_agent_has_attr "determine_next_action" = false ∧
    fill_form true scenarioRun1 =
      (false, { current_page := 1, questions_answered := 2,
                total_questions := 2 }) := by
  decide
